import Mathlib

/-!
Verification development for the `tracer` package: a facade over an
OpenTelemetry-style tracing pipeline.  The Go source is shallowly embedded:
pure functions become Lean functions, the effects a facade method performs on
the underlying `trace.Span` become an explicit list of operations, and the
process-global tracer variable becomes explicit state passed through `Init`
and `StartSpan`.
-/

namespace Tracer

/-- The gRPC status code `codes.Canceled` (numeric value 1). -/
def grpcCanceled : Nat := 1

/-- A Go `error` value, abstracted by the observations the tracer makes of
it: its `Error()` text, whether `errors.Is(err, context.Canceled)` holds,
whether `errors.Is(err, context.DeadlineExceeded)` holds, and the gRPC
status code that `status.Code(err)` reports for it. -/
structure GoError where
  msg : String
  isContextCanceled : Bool
  isContextDeadlineExceeded : Bool
  grpcCode : Nat
deriving DecidableEq, Repr

/-- OpenTelemetry status codes (`codes.Code`): Unset, Ok, Error. -/
inductive StatusCode where
  | unset
  | ok
  | error
deriving DecidableEq, Repr

/-- An attribute attached to a span, one constructor per semantic attribute
type produced by the `attribute` package helpers used in `span.Tag`.  A
`float64` payload is carried as its (uninterpreted) bit pattern: the facade
never computes with it, only forwards it. -/
inductive Attr where
  | intAttr (key : String) (v : Int)
  | stringAttr (key : String) (v : String)
  | float64Attr (key : String) (bits : Nat)
  | int64Attr (key : String) (v : Int)
  | boolAttr (key : String) (v : Bool)
  | stringSliceAttr (key : String) (v : List String)
  | intSliceAttr (key : String) (v : List Int)
  | stringerAttr (key : String) (v : String)
deriving DecidableEq, Repr

/-- One operation the facade performs on the underlying `trace.Span`.
`addEvent`'s timestamp is the clock value supplied via
`trace.WithTimestamp`, when one is supplied. -/
inductive SpanOp where
  | setAttribute (a : Attr)
  | setStatus (code : StatusCode) (description : String)
  | addEvent (name : String) (timestamp : Option Nat)
  | recordError (e : GoError)
  | endSpan
deriving DecidableEq, Repr

/-- A Go value passed to `span.Tag`, abstracted by the dynamic kind the
type switch in `Tag` dispatches on.  `goInt` is Go's platform-sized signed
`int` (32-bit on 32-bit platforms, 64-bit on 64-bit platforms) and
`goInt64` is `int64`; together they are the two signed-integer kinds the
switch accepts.  `stringerVal` is any value implementing `fmt.Stringer`
that matches none of the earlier cases, carried as its `String()` result.
`otherKind` is any remaining dynamic kind: it matches no case of the
switch. -/
inductive TagValue where
  | goInt (v : Int)
  | goString (s : String)
  | goFloat64 (bits : Nat)
  | goInt64 (v : Int)
  | goBool (b : Bool)
  | goStringSlice (l : List String)
  | goIntSlice (l : List Int)
  | stringerVal (s : String)
  | otherKind (tag : String)
deriving DecidableEq, Repr

/-- Embedding of `span.Tag`: the type switch that maps a dynamic value to
the operations performed on the underlying span.  Unmatched kinds fall out
of the switch and perform nothing. -/
def Tag (key : String) (value : TagValue) : List SpanOp :=
  match value with
  | .goInt v => [SpanOp.setAttribute (Attr.intAttr key v)]
  | .goString s => [SpanOp.setAttribute (Attr.stringAttr key s)]
  | .goFloat64 b => [SpanOp.setAttribute (Attr.float64Attr key b)]
  | .goInt64 v => [SpanOp.setAttribute (Attr.int64Attr key v)]
  | .goBool b => [SpanOp.setAttribute (Attr.boolAttr key b)]
  | .goStringSlice l => [SpanOp.setAttribute (Attr.stringSliceAttr key l)]
  | .goIntSlice l => [SpanOp.setAttribute (Attr.intSliceAttr key l)]
  | .stringerVal s => [SpanOp.setAttribute (Attr.stringerAttr key s)]
  | .otherKind _ => []

/-- The semantic attribute types of the `attribute` package helpers. -/
inductive AttrKind where
  | intK
  | stringK
  | float64K
  | int64K
  | boolK
  | stringSliceK
  | intSliceK
  | stringerK
deriving DecidableEq, Repr

/-- The key of an attached attribute. -/
def Attr.key : Attr → String
  | .intAttr k _ => k
  | .stringAttr k _ => k
  | .float64Attr k _ => k
  | .int64Attr k _ => k
  | .boolAttr k _ => k
  | .stringSliceAttr k _ => k
  | .intSliceAttr k _ => k
  | .stringerAttr k _ => k

/-- The semantic type of an attached attribute. -/
def Attr.kind : Attr → AttrKind
  | .intAttr _ _ => .intK
  | .stringAttr _ _ => .stringK
  | .float64Attr _ _ => .float64K
  | .int64Attr _ _ => .int64K
  | .boolAttr _ _ => .boolK
  | .stringSliceAttr _ _ => .stringSliceK
  | .intSliceAttr _ _ => .intSliceK
  | .stringerAttr _ _ => .stringerK

/-- The attribute type that matches a tag value's kind, `none` for a kind
outside the supported enumeration (signed integer, string, floating point,
boolean, string sequence, integer sequence, Stringer). -/
def TagValue.supportedKind : TagValue → Option AttrKind
  | .goInt _ => some .intK
  | .goString _ => some .stringK
  | .goFloat64 _ => some .float64K
  | .goInt64 _ => some .int64K
  | .goBool _ => some .boolK
  | .goStringSlice _ => some .stringSliceK
  | .goIntSlice _ => some .intSliceK
  | .stringerVal _ => some .stringerK
  | .otherKind _ => none

/-- Embedding of `span.handleError`: classify one non-nil error.  `now`
is the value of `time.Now()` at the moment `End` runs. -/
def handleError (now : Nat) (e : GoError) : SpanOp :=
  if e.isContextCanceled || e.grpcCode == grpcCanceled then
    SpanOp.addEvent "canceled" (some now)
  else
    SpanOp.setStatus StatusCode.error e.msg

/-- An entry of `End`'s variadic `errs ...*error` argument: `none` is a nil
pointer, `some none` a non-nil pointer to a nil error, `some (some e)` a
non-nil pointer to the non-nil error `e`. -/
abbrev ErrPtr : Type := Option (Option GoError)

/-- The scanning loop of `span.End`: walk the pointers in order; at the
first entry that is a non-nil pointer to a non-nil error, classify it and
stop.  Returns the operations the loop performs. -/
def endScan (now : Nat) : List ErrPtr → List SpanOp
  | [] => []
  | p :: rest =>
    match p with
    | some (some e) => [handleError now e]
    | _ => endScan now rest

/-- Embedding of `span.End`: run the error scan, then unconditionally call
`s.s.End()` on the underlying span. -/
def spanEnd (now : Nat) (errs : List ErrPtr) : List SpanOp :=
  endScan now errs ++ [SpanOp.endSpan]

/-- The resolved configuration (`Options` in `options.go`).  `time.Duration`
values are carried as their `int64` nanosecond count.  A `none` field is a
nil pointer: the corresponding option function was never applied. -/
structure Options where
  keepaliveTime : Option Int := none
  keepaliveTimeout : Option Int := none
  keepalivePermitWithoutStream : Option Bool := none
  host : String := ""
  port : Nat := 0
  noop : Bool := false
deriving DecidableEq, Repr

/-- One configuration function (`Option` in `options.go`), identified by
which constructor produced it together with its captured argument. -/
inductive TracerOption where
  | noopOpt
  | withCollectorHost (host : String)
  | withCollectorPort (port : Nat)
  | withKeepaliveTime (val : Int)
  | withKeepaliveTimeout (val : Int)
  | withKeepalivePermitWithoutStream (val : Bool)
deriving DecidableEq, Repr

/-- Applying one option function to an `Options` value: each mutates one
field, exactly as the closures in `options.go` do. -/
def applyOption (o : Options) : TracerOption → Options
  | .noopOpt => { o with noop := true }
  | .withCollectorHost h => { o with host := h }
  | .withCollectorPort p => { o with port := p }
  | .withKeepaliveTime v => { o with keepaliveTime := some v }
  | .withKeepaliveTimeout v => { o with keepaliveTimeout := some v }
  | .withKeepalivePermitWithoutStream v =>
      { o with keepalivePermitWithoutStream := some v }

/-- `defaultOptions`: collector host `localhost`, collector port 4317. -/
def defaultOptions : List TracerOption :=
  [TracerOption.withCollectorHost "localhost", TracerOption.withCollectorPort 4317]

/-- Embedding of `buildOptions`: prepend the defaults and fold every option
function over the zero `Options` value, later entries overriding earlier
ones. -/
def buildOptions (opts : List TracerOption) : Options :=
  (defaultOptions ++ opts).foldl applyOption {}

/-- `Options.GetGrpcTarget`: the `host:port` dial target string. -/
def Options.GetGrpcTarget (o : Options) : String :=
  o.host ++ ":" ++ toString o.port

/-- `Options.IsNoop`. -/
def Options.IsNoop (o : Options) : Bool :=
  o.noop

/-- `keepalive.ClientParameters`, zero-valued unless a field is set. -/
structure KeepaliveParams where
  time : Int := 0
  timeout : Int := 0
  permitWithoutStream : Bool := false
deriving DecidableEq, Repr

/-- One gRPC dial option produced by `grpcDialOptions`. -/
inductive DialOption where
  | insecureCreds
  | keepaliveParams (p : KeepaliveParams)
deriving DecidableEq, Repr

/-- Embedding of `grpcDialOptions`: start from insecure transport
credentials; fill a zero-valued `keepalive.ClientParameters` from whichever
keepalive fields are set, flagging `useKeepalive` if any is; append the
keepalive dial option only when the flag was raised. -/
def grpcDialOptions (options : Options) : List DialOption :=
  let opts := [DialOption.insecureCreds]
  let useKeepalive := false
  let p : KeepaliveParams := {}
  let (useKeepalive, p) :=
    match options.keepaliveTime with
    | some t => (true, { p with time := t })
    | none => (useKeepalive, p)
  let (useKeepalive, p) :=
    match options.keepaliveTimeout with
    | some t => (true, { p with timeout := t })
    | none => (useKeepalive, p)
  let (useKeepalive, p) :=
    match options.keepalivePermitWithoutStream with
    | some b => (true, { p with permitWithoutStream := b })
    | none => (useKeepalive, p)
  if useKeepalive then
    opts ++ [DialOption.keepaliveParams p]
  else
    opts

/-- The process-wide tracer variable (`var tracer trace.Tracer`), `none`
while nil.  A real tracer remembers the dial target it was configured
with, a noop tracer discards everything. -/
inductive GlobalTracer where
  | noopT
  | real (target : String)
deriving DecidableEq, Repr

/-- Outcomes of the external calls `Init` makes, supplied as an
environment: the error (if any) from `grpc.NewClient` and from
`otlptracegrpc.New`. -/
structure InitEnv where
  grpcNewClientErr : Option String := none
  exporterErr : Option String := none
deriving DecidableEq, Repr

/-- Externally visible side steps `Init` performs, in order. -/
inductive InitEffect where
  | builtOptions
  | connectAttempt
  | providerInstalled
deriving DecidableEq, Repr

/-- The shutdown procedure `Init` returns: the noop closure from noop mode,
or the aggregating closure from the exporting mode, which captured whether
`makeGrpcExporter` handed it a non-nil closer. -/
inductive Shutdown where
  | noopShutdown
  | realShutdown (closerPresent : Bool)
deriving DecidableEq, Repr

/-- Embedding of `Init`: given the environment, the current global tracer
and the caller's options, return the new global tracer, the result
(`Except` for Go's `(fn, error)` pair) and the effects performed. -/
def InitTracer (env : InitEnv) (t : Option GlobalTracer)
    (opts : List TracerOption) :
    Option GlobalTracer × Except String Shutdown × List InitEffect :=
  match t with
  | some _ => (t, Except.error "tracer already initialized", [])
  | none =>
    let options := buildOptions opts
    if options.IsNoop then
      (some GlobalTracer.noopT, Except.ok Shutdown.noopShutdown,
        [InitEffect.builtOptions])
    else
      match env.grpcNewClientErr with
      | some e =>
        (none, Except.error ("trace collector connection error: " ++ e),
          [InitEffect.builtOptions])
      | none =>
        match env.exporterErr with
        | some e =>
          (none, Except.error ("failed to create exporter: " ++ e),
            [InitEffect.builtOptions, InitEffect.connectAttempt])
        | none =>
          (some (GlobalTracer.real options.GetGrpcTarget),
            Except.ok (Shutdown.realShutdown true),
            [InitEffect.builtOptions, InitEffect.connectAttempt,
              InitEffect.providerInstalled])

/-- The two steps the exporting shutdown closure attempts, in order. -/
inductive ShutStep where
  | providerShutdown
  | connClose
deriving DecidableEq, Repr

/-- Running a shutdown procedure.  `tpErr` is the error (if any) from
`tp.Shutdown(ctx)`, `closeErr` the error (if any) from `conn.Close()`.
The combined error is the list `errors.Join` receives, each entry already
wrapped as in the source; `errors.Join` returns nil exactly when that list
is empty.  Returns the steps attempted and the error list. -/
def runShutdown : Shutdown → Option String → Option String →
    List ShutStep × List String
  | .noopShutdown, _, _ => ([], [])
  | .realShutdown closerPresent, tpErr, closeErr =>
    let errs :=
      match tpErr with
      | some e => ["failed to shutdown tracer provider: " ++ e]
      | none => []
    if closerPresent then
      let errs :=
        match closeErr with
        | some e => errs ++ ["failed to close tracer connection: " ++ e]
        | none => errs
      ([ShutStep.providerShutdown, ShutStep.connClose], errs)
    else
      ([ShutStep.providerShutdown], errs)

/-- Which tracer `StartSpan` started the span on. -/
inductive UsedTracer where
  | noopProvider
  | globalTracer
deriving DecidableEq, Repr

/-- The span handle `StartSpan` returns: which tracer produced the
underlying span and the span's name. -/
structure SpanHandle where
  used : UsedTracer
  name : String
deriving DecidableEq, Repr

/-- A context value: `activeSpan` is the span it carries, if any. -/
structure Ctx where
  activeSpan : Option SpanHandle := none
deriving DecidableEq, Repr

/-- Embedding of `StartSpan`: a total function — when the global tracer is
nil it starts the span on a fresh noop tracer provider, otherwise on the
global tracer; either way it returns the updated context and the handle. -/
def StartSpan (t : Option GlobalTracer) (ctx : Ctx) (name : String) :
    Ctx × SpanHandle :=
  match t with
  | none =>
    let h : SpanHandle := { used := UsedTracer.noopProvider, name := name }
    ({ ctx with activeSpan := some h }, h)
  | some _ =>
    let h : SpanHandle := { used := UsedTracer.globalTracer, name := name }
    ({ ctx with activeSpan := some h }, h)

/-! Helper lemmas about the `End` scan. -/

/-- An entry that is a nil pointer or points to a nil error is skipped. -/
lemma endScan_skip (now : Nat) (p : ErrPtr) (rest : List ErrPtr)
    (h : p = none ∨ p = some none) :
    endScan now (p :: rest) = endScan now rest := by
  rcases h with rfl | rfl <;> rfl

/-- A list of only nil entries produces no operation. -/
lemma endScan_all_nil (now : Nat) (l : List ErrPtr)
    (h : ∀ p ∈ l, p = none ∨ p = some none) :
    endScan now l = [] := by
  induction l with
  | nil => rfl
  | cons p rest ih =>
    rw [endScan_skip now p rest (h p (by simp))]
    exact ih fun q hq => h q (by simp [hq])

/-- The scan classifies exactly the first non-nil error it meets. -/
lemma endScan_first (now : Nat) (pre post : List ErrPtr) (e : GoError)
    (hpre : ∀ p ∈ pre, p = none ∨ p = some none) :
    endScan now (pre ++ some (some e) :: post) = [handleError now e] := by
  induction pre with
  | nil => rfl
  | cons p rest ih =>
    rw [List.cons_append, endScan_skip now p _ (hpre p (by simp))]
    exact ih fun q hq => hpre q (by simp [hq])

/-- The scan never performs the final `End` itself. -/
lemma endScan_no_endSpan (now : Nat) (l : List ErrPtr) :
    SpanOp.endSpan ∉ endScan now l := by
  induction l with
  | nil => simp [endScan]
  | cons p rest ih =>
    match p with
    | none => simpa [endScan] using ih
    | some none => simpa [endScan] using ih
    | some (some e) =>
      simp only [endScan, handleError]
      split <;> simp

/-- C1: for every error that is neither a context cancellation nor carries
the gRPC `Canceled` status code, `End(&err)` sets the status to `Error`
with description `err.Error()` (then finalizes), and emits no `"canceled"`
event. -/
theorem end_noncancel_sets_error_status (now : Nat) (e : GoError)
    (h1 : e.isContextCanceled = false) (h2 : e.grpcCode ≠ grpcCanceled) :
    spanEnd now [some (some e)] =
      [SpanOp.setStatus StatusCode.error e.msg, SpanOp.endSpan] ∧
    ∀ ts, SpanOp.addEvent "canceled" ts ∉ spanEnd now [some (some e)] := by
  have hc : (e.isContextCanceled || e.grpcCode == grpcCanceled) = false := by
    simp [h1, h2]
  constructor
  · simp [spanEnd, endScan, handleError, hc]
  · intro ts
    simp [spanEnd, endScan, handleError, hc]

/-- Witness for C1 at a concrete non-cancellation error. -/
theorem end_noncancel_sets_error_status_witness :
    spanEnd 7 [some (some ⟨"boom", false, false, 2⟩)] =
      [SpanOp.setStatus StatusCode.error "boom", SpanOp.endSpan] ∧
    ∀ ts, SpanOp.addEvent "canceled" ts ∉
      spanEnd 7 [some (some ⟨"boom", false, false, 2⟩)] :=
  end_noncancel_sets_error_status 7 ⟨"boom", false, false, 2⟩ rfl (by decide)

/-- C2: for every error that is a context cancellation or carries the gRPC
`Canceled` status code, `End(&err)` records a `"canceled"` event stamped
with the completion-time clock value (then finalizes), and sets no
status. -/
theorem end_cancellation_adds_canceled_event (now : Nat) (e : GoError)
    (h : e.isContextCanceled = true ∨ e.grpcCode = grpcCanceled) :
    spanEnd now [some (some e)] =
      [SpanOp.addEvent "canceled" (some now), SpanOp.endSpan] ∧
    ∀ c d, SpanOp.setStatus c d ∉ spanEnd now [some (some e)] := by
  have hc : (e.isContextCanceled || e.grpcCode == grpcCanceled) = true := by
    rcases h with h | h <;> simp [h]
  constructor
  · simp [spanEnd, endScan, handleError, hc]
  · intro c d
    simp [spanEnd, endScan, handleError, hc]

/-- Witness for C2 at a concrete context-cancellation error. -/
theorem end_cancellation_adds_canceled_event_witness :
    spanEnd 5 [some (some ⟨"context canceled", true, false, 2⟩)] =
      [SpanOp.addEvent "canceled" (some 5), SpanOp.endSpan] ∧
    ∀ c d, SpanOp.setStatus c d ∉
      spanEnd 5 [some (some ⟨"context canceled", true, false, 2⟩)] :=
  end_cancellation_adds_canceled_event 5 ⟨"context canceled", true, false, 2⟩
    (Or.inl rfl)

/-- C3: `End` scans its pointers in order and classifies exactly the first
entry that is a non-nil pointer to a non-nil error, skipping every earlier
nil entry and ignoring everything after it. -/
theorem end_first_nonnil_scan (now : Nat) (pre post : List ErrPtr)
    (e : GoError) (hpre : ∀ p ∈ pre, p = none ∨ p = some none) :
    spanEnd now (pre ++ some (some e) :: post) =
      [handleError now e, SpanOp.endSpan] := by
  unfold spanEnd
  rw [endScan_first now pre post e hpre]
  rfl

/-- Witness for C3: `End(&errA, &errB)` with `errA` nil and `errB` a
non-cancellation error sets the status from `errB`. -/
theorem end_first_nonnil_scan_witness :
    spanEnd 3 [some none, some (some ⟨"errB text", false, false, 2⟩)] =
      [SpanOp.setStatus StatusCode.error "errB text", SpanOp.endSpan] :=
  end_first_nonnil_scan 3 [some none] [] ⟨"errB text", false, false, 2⟩
    (by decide)

/-- C4: `End` with no pointer, nil pointers, or pointers to nil errors
performs no status change and no event; and whatever the entries, the
underlying span is finalized exactly once. -/
theorem end_frame_and_single_finalize (now : Nat) (errs : List ErrPtr)
    (h : ∀ p ∈ errs, p = none ∨ p = some none) :
    spanEnd now errs = [SpanOp.endSpan] ∧
    ∀ errs2 : List ErrPtr,
      (spanEnd now errs2).count SpanOp.endSpan = 1 := by
  constructor
  · unfold spanEnd
    rw [endScan_all_nil now errs h]
    rfl
  · intro errs2
    unfold spanEnd
    rw [List.count_append, List.count_eq_zero.mpr (endScan_no_endSpan now errs2)]
    simp

/-- Witness for C4 at a concrete all-nil argument list. -/
theorem end_frame_and_single_finalize_witness :
    spanEnd 2 [none, some none] = [SpanOp.endSpan] ∧
    ∀ errs2 : List ErrPtr,
      (spanEnd 2 errs2).count SpanOp.endSpan = 1 :=
  end_frame_and_single_finalize 2 [none, some none] (by decide)

/-- C10: a deadline-exceeded error that is not a context cancellation and
does not carry the gRPC `Canceled` code is classified as a failure: status
`Error` with the error's text, and no `"canceled"` event. -/
theorem end_deadline_exceeded_is_failure (now : Nat) (e : GoError)
    (h1 : e.isContextDeadlineExceeded = true)
    (h2 : e.isContextCanceled = false)
    (h3 : e.grpcCode ≠ grpcCanceled) :
    spanEnd now [some (some e)] =
      [SpanOp.setStatus StatusCode.error e.msg, SpanOp.endSpan] ∧
    ∀ ts, SpanOp.addEvent "canceled" ts ∉ spanEnd now [some (some e)] := by
  have hc : (e.isContextCanceled || e.grpcCode == grpcCanceled) = false := by
    simp [h2, h3]
  constructor
  · simp [spanEnd, endScan, handleError, hc]
  · intro ts
    simp [spanEnd, endScan, handleError, hc]

/-- Witness for C10 at a concrete deadline-exceeded error (gRPC code 4,
`DeadlineExceeded`). -/
theorem end_deadline_exceeded_is_failure_witness :
    spanEnd 9 [some (some ⟨"context deadline exceeded", false, true, 4⟩)] =
      [SpanOp.setStatus StatusCode.error "context deadline exceeded",
        SpanOp.endSpan] ∧
    ∀ ts, SpanOp.addEvent "canceled" ts ∉
      spanEnd 9 [some (some ⟨"context deadline exceeded", false, true, 4⟩)] :=
  end_deadline_exceeded_is_failure 9 ⟨"context deadline exceeded", false, true, 4⟩
    rfl rfl (by decide)

/-- C5: a value of a supported kind makes `Tag` attach exactly one
attribute, under the given key and of the matching semantic type; a value
of an unsupported kind makes `Tag` attach nothing (and, being a total
function, it returns without error). -/
theorem tag_supported_kinds (key : String) (v : TagValue) :
    (∀ k, v.supportedKind = some k →
      ∃ a, Tag key v = [SpanOp.setAttribute a] ∧ a.kind = k ∧ a.key = key) ∧
    (v.supportedKind = none → Tag key v = []) := by
  cases v <;>
    simp [Tag, TagValue.supportedKind, Attr.kind, Attr.key]

/-- Witness for C5: a boolean value attaches a boolean attribute, an
unsupported kind attaches nothing. -/
theorem tag_supported_kinds_witness :
    (∃ a, Tag "k" (TagValue.goBool true) = [SpanOp.setAttribute a] ∧
      a.kind = AttrKind.boolK ∧ a.key = "k") ∧
    Tag "x" (TagValue.otherKind "chan int") = [] :=
  ⟨(tag_supported_kinds "k" (TagValue.goBool true)).1 AttrKind.boolK rfl,
    (tag_supported_kinds "x" (TagValue.otherKind "chan int")).2 rfl⟩

/-- C6: once the global tracer is set, any further `Init` call returns the
`tracer already initialized` error, leaves the tracer unchanged, and
performs no effect (no option resolution, no connection attempt, no
provider installation). -/
theorem init_twice_rejected (env : InitEnv) (g : GlobalTracer)
    (opts : List TracerOption) :
    InitTracer env (some g) opts =
      (some g, Except.error "tracer already initialized", []) :=
  rfl

/-- A successful `Init` whose result is not the noop shutdown closure
returned the aggregating closure holding a non-nil closer. -/
lemma initTracer_ok_shutdown (env : InitEnv) (opts : List TracerOption)
    (sd : Shutdown) (hnn : sd ≠ Shutdown.noopShutdown)
    (h : (InitTracer env none opts).2.1 = Except.ok sd) :
    sd = Shutdown.realShutdown true := by
  rcases henv1 : env.grpcNewClientErr with _ | e1 <;>
  rcases henv2 : env.exporterErr with _ | e2 <;>
  cases hn : (buildOptions opts).IsNoop <;>
  simp [InitTracer, henv1, henv2, hn] at h <;>
  simp_all

/-- C7: a successful non-noop `Init` returns the aggregating shutdown
closure holding a non-nil closer; running it attempts the provider
shutdown and then the connection close whatever the first step returned,
aggregates the two steps' errors, and returns no error exactly when both
steps succeed. -/
theorem shutdown_aggregates_both_steps (env : InitEnv)
    (opts : List TracerOption) (st : Option GlobalTracer) (sd : Shutdown)
    (eff : List InitEffect)
    (hinit : InitTracer env none opts = (st, Except.ok sd, eff))
    (hnn : sd ≠ Shutdown.noopShutdown) :
    sd = Shutdown.realShutdown true ∧
    (∀ tpErr closeErr,
      (runShutdown sd tpErr closeErr).1 =
        [ShutStep.providerShutdown, ShutStep.connClose] ∧
      ((runShutdown sd tpErr closeErr).2 = [] ↔
        (tpErr = none ∧ closeErr = none))) ∧
    (∀ e1 e2, (runShutdown sd (some e1) (some e2)).2 =
      ["failed to shutdown tracer provider: " ++ e1,
        "failed to close tracer connection: " ++ e2]) := by
  have hsd : sd = Shutdown.realShutdown true :=
    initTracer_ok_shutdown env opts sd hnn (by rw [hinit])
  subst hsd
  refine ⟨rfl, ?_, ?_⟩
  · intro tpErr closeErr
    rcases tpErr with _ | e1 <;> rcases closeErr with _ | e2 <;>
      simp [runShutdown]
  · intro e1 e2
    simp [runShutdown]

/-- Witness for C7: `Init` with the default options (exporting mode) and a
healthy environment. -/
theorem shutdown_aggregates_both_steps_witness :
    Shutdown.realShutdown true = Shutdown.realShutdown true ∧
    (∀ tpErr closeErr,
      (runShutdown (Shutdown.realShutdown true) tpErr closeErr).1 =
        [ShutStep.providerShutdown, ShutStep.connClose] ∧
      ((runShutdown (Shutdown.realShutdown true) tpErr closeErr).2 = [] ↔
        (tpErr = none ∧ closeErr = none))) ∧
    (∀ e1 e2,
      (runShutdown (Shutdown.realShutdown true) (some e1) (some e2)).2 =
        ["failed to shutdown tracer provider: " ++ e1,
          "failed to close tracer connection: " ++ e2]) :=
  shutdown_aggregates_both_steps {} []
    (some (GlobalTracer.real (Options.GetGrpcTarget (buildOptions []))))
    (Shutdown.realShutdown true)
    [InitEffect.builtOptions, InitEffect.connectAttempt,
      InitEffect.providerInstalled]
    rfl (by decide)

/-- Folding option functions: the keepalive-time field ends up set exactly
when a keepalive-time option occurs in the fold or it was set before. -/
lemma foldl_keepaliveTime (l : List TracerOption) (acc : Options) :
    (l.foldl applyOption acc).keepaliveTime ≠ none ↔
      (∃ d, TracerOption.withKeepaliveTime d ∈ l) ∨
        acc.keepaliveTime ≠ none := by
  induction l generalizing acc with
  | nil => simp
  | cons o rest ih =>
    rw [List.foldl_cons, ih]
    cases o <;> simp [applyOption]

/-- Folding option functions: the keepalive-timeout field ends up set
exactly when a keepalive-timeout option occurs in the fold or it was set
before. -/
lemma foldl_keepaliveTimeout (l : List TracerOption) (acc : Options) :
    (l.foldl applyOption acc).keepaliveTimeout ≠ none ↔
      (∃ d, TracerOption.withKeepaliveTimeout d ∈ l) ∨
        acc.keepaliveTimeout ≠ none := by
  induction l generalizing acc with
  | nil => simp
  | cons o rest ih =>
    rw [List.foldl_cons, ih]
    cases o <;> simp [applyOption]

/-- Folding option functions: the permit-without-stream field ends up set
exactly when that option occurs in the fold or it was set before. -/
lemma foldl_keepalivePermit (l : List TracerOption) (acc : Options) :
    (l.foldl applyOption acc).keepalivePermitWithoutStream ≠ none ↔
      (∃ b, TracerOption.withKeepalivePermitWithoutStream b ∈ l) ∨
        acc.keepalivePermitWithoutStream ≠ none := by
  induction l generalizing acc with
  | nil => simp
  | cons o rest ih =>
    rw [List.foldl_cons, ih]
    cases o <;> simp [applyOption]

/-- C8: the dial options contain a keepalive-parameters entry exactly when
at least one of the three keepalive fields of the resolved `Options` is
set; and each keepalive field of `buildOptions opts` is set exactly when
the corresponding option function occurs in `opts` (the defaults set
none of them).  In particular, with no keepalive option supplied the dial
options carry no keepalive entry at all. -/
theorem keepalive_iff_option_supplied :
    (∀ o : Options,
      (∃ p, DialOption.keepaliveParams p ∈ grpcDialOptions o) ↔
        (o.keepaliveTime ≠ none ∨ o.keepaliveTimeout ≠ none ∨
          o.keepalivePermitWithoutStream ≠ none)) ∧
    (∀ opts : List TracerOption,
      ((buildOptions opts).keepaliveTime ≠ none ↔
        ∃ d, TracerOption.withKeepaliveTime d ∈ opts) ∧
      ((buildOptions opts).keepaliveTimeout ≠ none ↔
        ∃ d, TracerOption.withKeepaliveTimeout d ∈ opts) ∧
      ((buildOptions opts).keepalivePermitWithoutStream ≠ none ↔
        ∃ b, TracerOption.withKeepalivePermitWithoutStream b ∈ opts)) := by
  constructor
  · intro o
    rcases h1 : o.keepaliveTime with _ | t <;>
    rcases h2 : o.keepaliveTimeout with _ | u <;>
    rcases h3 : o.keepalivePermitWithoutStream with _ | b <;>
    simp [grpcDialOptions, h1, h2, h3]
  · intro opts
    refine ⟨?_, ?_, ?_⟩
    · rw [buildOptions, foldl_keepaliveTime]
      simp [defaultOptions]
    · rw [buildOptions, foldl_keepaliveTimeout]
      simp [defaultOptions]
    · rw [buildOptions, foldl_keepalivePermit]
      simp [defaultOptions]

/-- C9: `StartSpan` is total: for every global-tracer state it returns an
updated context carrying the new span together with the span handle, and
it runs on the noop tracer provider exactly when the global tracer is
unset. -/
theorem startSpan_total_noop_fallback (t : Option GlobalTracer) (ctx : Ctx)
    (name : String) :
    (StartSpan t ctx name).1.activeSpan = some (StartSpan t ctx name).2 ∧
    (StartSpan t ctx name).2.name = name ∧
    ((StartSpan t ctx name).2.used = UsedTracer.noopProvider ↔ t = none) := by
  cases t <;> simp [StartSpan]

end Tracer
